import Mathlib

/-!
A shallow embedding of the LUIS TypeScript client (`src/index.ts`): the
`Version` enum, the application factory `create`, and the request dispatcher
`callApi`, together with models of the platform facilities the source uses —
Node's legacy `url` module, `JSON.parse`, the `request` transport callback,
and ECMAScript `Promise` executor semantics.
-/

namespace Luis

/-- The internal `Version` enum of `src/index.ts`: `None`, `V1`, `V1Preview`. -/
inductive Version where
  | none
  | v1
  | v1Preview
deriving DecidableEq, Repr

/-- TypeScript reverse enum mapping `Version[version]`, used in the dispatcher
error message: `Version[0] = "None"`, etc. -/
def Version.tsName : Version → String
  | .none => "None"
  | .v1 => "V1"
  | .v1Preview => "V1Preview"

/-! ## Model of Node's legacy `url` module

`url.parse` returns a `Url` object whose fields — including `href` — are plain
data properties computed once during parsing.  Assigning to `query` afterwards
does not recompute `href`; only `url.format` re-serialises the object (using
`query` when `search` is absent).  We model exactly the fields the source
touches for its two base URIs (absolute `https` URLs with a host, a pathname
and no query string, for which parsing is normalisation-free). -/

/-- UTF-8 bytes of a character (standard encoding of its scalar value). -/
def charUtf8Bytes (c : Char) : List Nat :=
  let n := c.toNat
  if n < 0x80 then [n]
  else if n < 0x800 then
    [0xC0 + n / 0x40, 0x80 + n % 0x40]
  else if n < 0x10000 then
    [0xE0 + n / 0x1000, 0x80 + n / 0x40 % 0x40, 0x80 + n % 0x40]
  else
    [0xF0 + n / 0x40000, 0x80 + n / 0x1000 % 0x40, 0x80 + n / 0x40 % 0x40,
      0x80 + n % 0x40]

/-- Upper-case hexadecimal digit for a value below 16. -/
def hexDigit (n : Nat) : Char :=
  if n < 10 then Char.ofNat (48 + n) else Char.ofNat (55 + n)

/-- Percent-encoding `%HH` of one byte, upper-case hex. -/
def percentByte (b : Nat) : List Char :=
  ['%', hexDigit (b / 16), hexDigit (b % 16)]

/-- Characters `querystring.escape` leaves unencoded: ASCII alphanumerics and
`! ' ( ) * - . _ ~` (the `encodeURIComponent` unreserved set). -/
def qsUnreserved (c : Char) : Bool :=
  let n := c.toNat
  (65 ≤ n ∧ n ≤ 90) ∨ (97 ≤ n ∧ n ≤ 122) ∨ (48 ≤ n ∧ n ≤ 57) ∨
    n = 33 ∨ n = 39 ∨ n = 40 ∨ n = 41 ∨ n = 42 ∨ n = 45 ∨ n = 46 ∨
    n = 95 ∨ n = 126

/-- Model of Node `querystring.escape`: unreserved characters pass through,
every other character is replaced by the percent-encoding of its UTF-8 bytes. -/
def qsEscape (s : String) : String :=
  String.mk (s.data.flatMap fun c =>
    if qsUnreserved c then [c] else (charUtf8Bytes c).flatMap percentByte)

/-- Model of Node `querystring.stringify` on an object: `k=v` pairs, both
sides escaped, joined with `&`. -/
def qsStringify (q : List (String × String)) : String :=
  String.intercalate "&" (q.map fun kv => qsEscape kv.1 ++ "=" ++ qsEscape kv.2)

/-- The fields of a legacy Node `Url` object that the source reads or writes.
All fields are plain data properties: mutating one never updates another. -/
structure Url where
  protocol : String
  host : String
  pathname : String
  search : Option String
  query : Option (List (String × String))
  /-- Set once by `url.parse`; NOT recomputed when `query` is assigned. -/
  href : String
deriving DecidableEq, Repr

/-- Split a character list at the first character satisfying `p`: the part
before it, and the part from it on (empty when no character satisfies `p`). -/
def splitAtFirst (p : Char → Bool) : List Char → List Char × List Char
  | [] => ([], [])
  | c :: cs =>
    if p c then ([], c :: cs)
    else
      let r := splitAtFirst p cs
      (c :: r.1, r.2)

/-- Lower-case an ASCII letter, leave every other character unchanged. -/
def asciiLower (c : Char) : Char :=
  if 65 ≤ c.toNat ∧ c.toNat ≤ 90 then Char.ofNat (c.toNat + 32) else c

/-- Model of `url.parse` on an absolute `scheme://host/path` URL with no
userinfo, port, query string or fragment (the only inputs the source parses).
Node lower-cases the scheme and host and recomposes `href` from the parsed
parts; for the source's two base URIs this is the identity.  `search` and
`query` come out absent, and `href` is a plain string property fixed here,
never recomputed. -/
def urlParse (s : String) : Url :=
  let cs := s.data
  let schemeRest := splitAtFirst (fun c => c = ':') cs
  let protocol := String.mk (schemeRest.1.map asciiLower) ++ ":"
  let afterSlashes := schemeRest.2.drop 3
  let hostPath := splitAtFirst (fun c => c = '/') afterSlashes
  let host := String.mk (hostPath.1.map asciiLower)
  let pathname := if hostPath.2.isEmpty then "/" else String.mk hostPath.2
  { protocol := protocol
    host := host
    pathname := pathname
    search := Option.none
    query := Option.none
    href := protocol ++ "//" ++ host ++ pathname }

/-- The assignment `uri.query = {...}` in the source: a plain property write.
`href` keeps the value `url.parse` gave it. -/
def setQuery (u : Url) (q : List (String × String)) : Url :=
  { u with query := some q }

/-- Model of `url.format` on such an object: since `search` is absent, the
`query` object is serialised with `querystring.stringify` and appended after
`?`.  The source never calls this — the defect under study is precisely that
it reads `href` instead. -/
def urlFormat (u : Url) : String :=
  u.protocol ++ "//" ++ u.host ++ u.pathname ++
    (match u.query with
     | Option.none => ""
     | some q => "?" ++ qsStringify q)

/-! ## Model of `JSON.parse`

JavaScript values producible by `JSON.parse`, and a recursive-descent parser
for the JSON grammar (RFC 8259, the grammar `JSON.parse` implements).
Numbers are kept as their source lexeme: JavaScript numbers are IEEE doubles,
and no claim depends on numeric arithmetic — only on parse success/failure and
on the parsed value being passed through unchanged. -/

/-- A parsed JSON value. -/
inductive Json where
  | null
  | bool (b : Bool)
  | num (lexeme : String)
  | str (s : String)
  | arr (elems : List Json)
  | obj (members : List (String × Json))
deriving Repr

/-- JSON insignificant whitespace: space, tab, line feed, carriage return. -/
def isJsonWs (c : Char) : Bool :=
  c.toNat = 32 ∨ c.toNat = 9 ∨ c.toNat = 10 ∨ c.toNat = 13

/-- Drop leading JSON whitespace. -/
def skipWs : List Char → List Char
  | [] => []
  | c :: cs => if isJsonWs c then skipWs cs else c :: cs

/-- Value of one hexadecimal digit. -/
def hexVal (c : Char) : Option Nat :=
  let n := c.toNat
  if 48 ≤ n ∧ n ≤ 57 then some (n - 48)
  else if 65 ≤ n ∧ n ≤ 70 then some (n - 55)
  else if 97 ≤ n ∧ n ≤ 102 then some (n - 87)
  else Option.none

/-- Read four hexadecimal digits. -/
def readHex4 : List Char → Option (Nat × List Char)
  | h1 :: h2 :: h3 :: h4 :: rest =>
    match hexVal h1, hexVal h2, hexVal h3, hexVal h4 with
    | some a, some b, some c, some d => some ((((a * 16 + b) * 16 + c) * 16 + d), rest)
    | _, _, _, _ => Option.none
  | _ => Option.none

/-- Single-character string escapes of JSON (`\"  \\  \/  \b  \f  \n  \r  \t`). -/
def escChar (e : Char) : Option Char :=
  if e.toNat = 34 then some (Char.ofNat 34)
  else if e.toNat = 92 then some (Char.ofNat 92)
  else if e.toNat = 47 then some (Char.ofNat 47)
  else if e.toNat = 98 then some (Char.ofNat 8)
  else if e.toNat = 102 then some (Char.ofNat 12)
  else if e.toNat = 110 then some (Char.ofNat 10)
  else if e.toNat = 114 then some (Char.ofNat 13)
  else if e.toNat = 116 then some (Char.ofNat 9)
  else Option.none

/-- Decode one escape sequence (the characters after the backslash): the
decoded character and the remaining input.  `\uXXXX` pairs of surrogates
combine into one scalar value; a lone surrogate half becomes U+FFFD (Lean
strings hold Unicode scalar values, while JavaScript strings may hold lone
surrogates — a modelling approximation no claim exercises). -/
def unescape : List Char → Except String (Char × List Char)
  | [] => .error "Unexpected end of JSON input"
  | e :: cs =>
    match escChar e with
    | some ec => .ok (ec, cs)
    | Option.none =>
      if e.toNat = 117 then
        match readHex4 cs with
        | Option.none => .error "Bad Unicode escape in JSON"
        | some (code, cs2) =>
          if 0xD800 ≤ code ∧ code < 0xDC00 then
            match cs2 with
            | b1 :: u2 :: cs3 =>
              if b1.toNat = 92 ∧ u2.toNat = 117 then
                match readHex4 cs3 with
                | some (lo, cs4) =>
                  if 0xDC00 ≤ lo ∧ lo < 0xE000 then
                    .ok (Char.ofNat (0x10000 + (code - 0xD800) * 0x400 + (lo - 0xDC00)), cs4)
                  else .ok (Char.ofNat 0xFFFD, cs2)
                | Option.none => .ok (Char.ofNat 0xFFFD, cs2)
              else .ok (Char.ofNat 0xFFFD, cs2)
            | _ => .ok (Char.ofNat 0xFFFD, cs2)
          else if 0xDC00 ≤ code ∧ code < 0xE000 then .ok (Char.ofNat 0xFFFD, cs2)
          else .ok (Char.ofNat code, cs2)
      else .error "Bad escaped character in JSON"

/-- Parse the body of a JSON string after its opening quote: the content
characters and the input remaining after the closing quote.  Unescaped
control characters below U+0020 are rejected, as `JSON.parse` rejects them. -/
def parseStringBody : Nat → List Char → Except String (List Char × List Char)
  | 0, _ => .error "JSON string too long"
  | _, [] => .error "Unexpected end of JSON input"
  | fuel + 1, c :: cs =>
    if c.toNat = 34 then .ok ([], cs)
    else if c.toNat = 92 then
      match unescape cs with
      | .error e => .error e
      | .ok (ch, rest) =>
        match parseStringBody fuel rest with
        | .error e => .error e
        | .ok (tail, rest2) => .ok (ch :: tail, rest2)
    else if c.toNat < 32 then .error "Bad control character in JSON string"
    else
      match parseStringBody fuel cs with
      | .error e => .error e
      | .ok (tail, rest2) => .ok (c :: tail, rest2)

/-- Longest leading run of decimal digits, and the rest. -/
def spanDigits : List Char → List Char × List Char
  | [] => ([], [])
  | c :: cs =>
    if 48 ≤ c.toNat ∧ c.toNat ≤ 57 then
      let r := spanDigits cs
      (c :: r.1, r.2)
    else ([], c :: cs)

/-- Optional fraction part `.digits` of a JSON number. -/
def parseFracPart : List Char → Except String (List Char × List Char)
  | [] => .ok ([], [])
  | c :: rest =>
    if c.toNat = 46 then
      match spanDigits rest with
      | ([], _) => .error "Unexpected token in JSON"
      | (ds, rest2) => .ok (c :: ds, rest2)
    else .ok ([], c :: rest)

/-- Optional exponent part `e[+-]digits` of a JSON number. -/
def parseExpPart : List Char → Except String (List Char × List Char)
  | [] => .ok ([], [])
  | c :: rest =>
    if c.toNat = 101 ∨ c.toNat = 69 then
      let sr : List Char × List Char :=
        match rest with
        | s :: r2 => if s.toNat = 43 ∨ s.toNat = 45 then ([s], r2) else ([], rest)
        | [] => ([], [])
      match spanDigits sr.2 with
      | ([], _) => .error "Unexpected token in JSON"
      | (ds, rest3) => .ok (c :: (sr.1 ++ ds), rest3)
    else .ok ([], c :: rest)

/-- Parse a JSON number starting at its first character (`-` or a digit):
its lexeme and the rest.  The integer part is `0` or a nonzero digit followed
by digits (JSON forbids redundant leading zeros). -/
def parseNumber (cs : List Char) : Except String (List Char × List Char) :=
  let sgn : List Char × List Char :=
    match cs with
    | c :: rest => if c.toNat = 45 then ([c], rest) else ([], cs)
    | [] => ([], [])
  match sgn.2 with
  | [] => .error "Unexpected end of JSON input"
  | d :: rest1 =>
    if d.toNat = 48 then
      match parseFracPart rest1 with
      | .error e => .error e
      | .ok (f, rest2) =>
        match parseExpPart rest2 with
        | .error e => .error e
        | .ok (ex, rest3) => .ok (sgn.1 ++ [d] ++ f ++ ex, rest3)
    else if 49 ≤ d.toNat ∧ d.toNat ≤ 57 then
      match spanDigits rest1 with
      | (ds, rest2) =>
        match parseFracPart rest2 with
        | .error e => .error e
        | .ok (f, rest3) =>
          match parseExpPart rest3 with
          | .error e => .error e
          | .ok (ex, rest4) => .ok (sgn.1 ++ (d :: ds) ++ f ++ ex, rest4)
    else .error "Unexpected token in JSON"

/-- Match a literal keyword tail (`rue`, `alse`, `ull`), returning the rest. -/
def stripLit : List Char → List Char → Option (List Char)
  | [], cs => some cs
  | l :: ls, c :: cs => if c = l then stripLit ls cs else Option.none
  | _ :: _, [] => Option.none

mutual

/-- Parse one JSON value (fuel bounds the depth of nested parser calls; each
call consumes input before descending, so the fuel `jsonParse` supplies can
never run out). -/
def parseValue : Nat → List Char → Except String (Json × List Char)
  | 0, _ => .error "JSON input too deeply nested"
  | fuel + 1, cs =>
    match skipWs cs with
    | [] => .error "Unexpected end of JSON input"
    | c :: rest =>
      if c.toNat = 34 then
        match parseStringBody (rest.length + 1) rest with
        | .error e => .error e
        | .ok (chars, rest2) => .ok (.str (String.mk chars), rest2)
      else if c.toNat = 123 then parseMembersStart fuel rest
      else if c.toNat = 91 then parseElementsStart fuel rest
      else if c.toNat = 116 then
        match stripLit [Char.ofNat 114, Char.ofNat 117, Char.ofNat 101] rest with
        | some rest2 => .ok (.bool true, rest2)
        | Option.none => .error "Unexpected token in JSON"
      else if c.toNat = 102 then
        match stripLit [Char.ofNat 97, Char.ofNat 108, Char.ofNat 115, Char.ofNat 101] rest with
        | some rest2 => .ok (.bool false, rest2)
        | Option.none => .error "Unexpected token in JSON"
      else if c.toNat = 110 then
        match stripLit [Char.ofNat 117, Char.ofNat 108, Char.ofNat 108] rest with
        | some rest2 => .ok (.null, rest2)
        | Option.none => .error "Unexpected token in JSON"
      else if c.toNat = 45 ∨ (48 ≤ c.toNat ∧ c.toNat ≤ 57) then
        match parseNumber (c :: rest) with
        | .error e => .error e
        | .ok (lex, rest2) => .ok (.num (String.mk lex), rest2)
      else .error "Unexpected token in JSON"

/-- Parse the elements of an array after its `[`. -/
def parseElementsStart : Nat → List Char → Except String (Json × List Char)
  | 0, _ => .error "JSON input too deeply nested"
  | fuel + 1, cs =>
    match skipWs cs with
    | [] => .error "Unexpected end of JSON input"
    | c :: rest =>
      if c.toNat = 93 then .ok (.arr [], rest)
      else
        match parseValue fuel (c :: rest) with
        | .error e => .error e
        | .ok (v, rest2) => parseElementsTail fuel [v] rest2

/-- Parse `, value`-or-`]` continuations of an array (elements accumulated in
reverse). -/
def parseElementsTail : Nat → List Json → List Char → Except String (Json × List Char)
  | 0, _, _ => .error "JSON input too deeply nested"
  | fuel + 1, acc, cs =>
    match skipWs cs with
    | [] => .error "Unexpected end of JSON input"
    | c :: rest =>
      if c.toNat = 93 then .ok (.arr acc.reverse, rest)
      else if c.toNat = 44 then
        match parseValue fuel rest with
        | .error e => .error e
        | .ok (v, rest2) => parseElementsTail fuel (v :: acc) rest2
      else .error "Unexpected token in JSON"

/-- Parse one `"key": value` member whose opening quote has been consumed. -/
def parseMemberAfterQuote : Nat → List Char → Except String ((String × Json) × List Char)
  | 0, _ => .error "JSON input too deeply nested"
  | fuel + 1, cs =>
    match parseStringBody (cs.length + 1) cs with
    | .error e => .error e
    | .ok (kchars, rest) =>
      match skipWs rest with
      | [] => .error "Unexpected end of JSON input"
      | c :: rest2 =>
        if c.toNat = 58 then
          match parseValue fuel rest2 with
          | .error e => .error e
          | .ok (v, rest3) => .ok ((String.mk kchars, v), rest3)
        else .error "Unexpected token in JSON"

/-- Parse the members of an object after its opening brace. -/
def parseMembersStart : Nat → List Char → Except String (Json × List Char)
  | 0, _ => .error "JSON input too deeply nested"
  | fuel + 1, cs =>
    match skipWs cs with
    | [] => .error "Unexpected end of JSON input"
    | c :: rest =>
      if c.toNat = 125 then .ok (.obj [], rest)
      else if c.toNat = 34 then
        match parseMemberAfterQuote fuel rest with
        | .error e => .error e
        | .ok (kv, rest2) => parseMembersTail fuel [kv] rest2
      else .error "Unexpected token in JSON"

/-- Parse `, "key": value`-or-closing-brace continuations of an object
(members accumulated in reverse). -/
def parseMembersTail : Nat → List (String × Json) → List Char → Except String (Json × List Char)
  | 0, _, _ => .error "JSON input too deeply nested"
  | fuel + 1, acc, cs =>
    match skipWs cs with
    | [] => .error "Unexpected end of JSON input"
    | c :: rest =>
      if c.toNat = 125 then .ok (.obj acc.reverse, rest)
      else if c.toNat = 44 then
        match skipWs rest with
        | [] => .error "Unexpected end of JSON input"
        | c2 :: rest2 =>
          if c2.toNat = 34 then
            match parseMemberAfterQuote fuel rest2 with
            | .error e => .error e
            | .ok (kv, rest3) => parseMembersTail fuel (kv :: acc) rest3
          else .error "Unexpected token in JSON"
      else .error "Unexpected token in JSON"

end

/-- Model of `JSON.parse`: parse one JSON text with nothing but whitespace
around it; `.error` models the thrown `SyntaxError`.  The fuel bounds parser
call depth; at most two nested calls are entered per consumed character, so
`2·length + 4` can never be exhausted. -/
def jsonParse (s : String) : Except String Json :=
  match parseValue (2 * s.data.length + 4) s.data with
  | .error e => .error e
  | .ok (v, rest) =>
    match skipWs rest with
    | [] => .ok v
    | _ :: _ => .error "Unexpected token in JSON"

/-! ## Model of the `request` transport and of Promise executor semantics

The source wraps one `request(uri.href, {}, callback)` exchange in
`new Promise((resolve, reject) => ...)`.  The executor returns as soon as the
exchange is initiated; the callback runs later, when the transport delivers
its result.  Per ECMAScript, the `Promise` constructor intercepts only
exceptions thrown synchronously by the executor itself — an exception thrown
inside an asynchronous callback is an uncaught exception, and the promise
stays pending forever. -/

/-- An outbound HTTP request as handed to the `request` module: the method
(`request` defaults to GET) and the URI string the source passes
(`uri.href`). -/
structure HttpRequest where
  method : String
  uri : String
deriving DecidableEq, Repr

/-- What the transport delivers to the `request` callback for one exchange:
a transport-level error, or a response with a status code and a body text.
`ε` is the type of transport error values, passed through opaquely. -/
inductive TransportResult (ε : Type) where
  | error (e : ε)
  | response (status : Nat) (body : String)

/-- What executing the source's callback
`(error, response, body) => { if (error) reject(error); else resolve(JSON.parse(body)) }`
does for one delivered `TransportResult`: call `reject`, call `resolve`, or —
when `JSON.parse` throws — let the exception escape the callback, calling
neither. -/
inductive CallbackEffect (ε : Type) where
  | callReject (e : ε)
  | callResolve (v : Json)
  | throwEscape (parseError : String)

/-- The source's `request` callback. -/
def requestCallback {ε : Type} : TransportResult ε → CallbackEffect ε
  | .error e => .callReject e
  | .response _ body =>
    match jsonParse body with
    | .ok v => .callResolve v
    | .error pe => .throwEscape pe

/-- The eventual state of the promise `callApi` returns. -/
inductive PromiseOutcome (ε : Type) where
  | rejected (e : ε)
  | resolved (v : Json)
  | neverSettled (uncaught : String)

/-- How the promise ends up, given what the callback did.  The callback runs
after the executor has returned, so its `throw` is not converted into a
rejection: the promise never settles and the exception is uncaught. -/
def settleFromCallback {ε : Type} : CallbackEffect ε → PromiseOutcome ε
  | .callReject e => .rejected e
  | .callResolve v => .resolved v
  | .throwEscape pe => .neverSettled pe

/-- Whether the promise ever settles (delivers its completion). -/
def PromiseOutcome.settled {ε : Type} : PromiseOutcome ε → Bool
  | .rejected _ => true
  | .resolved _ => true
  | .neverSettled _ => false

/-! ## The dispatcher `callApi` and the factory `create` -/

/-- The `switch (version)` opening `callApi`: the fixed base endpoint per
selector.  `.error` models the synchronously thrown
`new Error(...)` of the `default` branch, message included
(`Version[version]` is the TypeScript reverse enum mapping). -/
def baseUriFor : Version → Except String String
  | .v1 => .ok "https://api.projectoxford.ai/luis/v1/application"
  | .v1Preview => .ok "https://api.projectoxford.ai/luis/v1/application/preview"
  | .none =>
    .error ("The specified version '" ++ Version.tsName .none ++ "' is not supported.")

/-- The synchronous phase of `callApi`: select the base URI (the switch may
throw), build the `url` object with `url.parse`, assign its `query` property,
and form the GET request from `uri.href`.  Since the `query` assignment does
not recompute `href`, the request URI is the bare base URI. -/
def callApiRequest (query : String) (version : Version)
    (applicationId subscriptionKey : String) : Except String HttpRequest :=
  match baseUriFor version with
  | .error e => .error e
  | .ok baseUri =>
    let uri := setQuery (urlParse baseUri)
      [("id", applicationId), ("subscription-key", subscriptionKey), ("q", query)]
    .ok { method := "GET", uri := uri.href }

/-- `callApi`: the synchronous phase produces the request or throws; the
returned promise's eventual outcome is then determined by what the transport
delivers for that request, via the callback and executor semantics above.
The outer `Except` is the synchronous throw of the switch; `transport` is the
environment — what the network does with a given request. -/
def callApi {ε : Type} (query : String) (version : Version)
    (applicationId subscriptionKey : String)
    (transport : HttpRequest → TransportResult ε) :
    Except String (PromiseOutcome ε) :=
  match callApiRequest query version applicationId subscriptionKey with
  | .error e => .error e
  | .ok req => .ok (settleFromCallback (requestCallback (transport req)))

/-- The `Application` interface: the two promise-returning query operations,
threaded through the ambient transport. -/
structure Application (ε : Type) where
  queryV1 : String → (HttpRequest → TransportResult ε) →
    Except String (PromiseOutcome ε)
  queryV1Preview : String → (HttpRequest → TransportResult ε) →
    Except String (PromiseOutcome ε)

/-- The factory `create`: pure construction of the object literal whose two
operations delegate to `callApi` with the captured credentials and their
respective version selectors. -/
def create {ε : Type} (applicationId subscriptionKey : String) : Application ε where
  queryV1 := fun query transport =>
    callApi query .v1 applicationId subscriptionKey transport
  queryV1Preview := fun query transport =>
    callApi query .v1Preview applicationId subscriptionKey transport

/-- The version-independent tail of `callApi` — everything after the switch —
abstracted over the already-selected base endpoint.  Both entry points are
this one code path applied to their endpoint (claim C10). -/
def dispatchWithBase {ε : Type} (baseUri query applicationId subscriptionKey : String)
    (transport : HttpRequest → TransportResult ε) : PromiseOutcome ε :=
  let uri := setQuery (urlParse baseUri)
    [("id", applicationId), ("subscription-key", subscriptionKey), ("q", query)]
  settleFromCallback (requestCallback (transport { method := "GET", uri := uri.href }))

/-! ## Claim theorems -/

/-- C1: the claim fails on the code.  Dispatching
`create("app-123","key-abc").queryV1("book a flight to Paris")` issues a GET
whose URI is the bare V1 endpoint with NO query parameters: the source assigns
the three parameters to `uri.query` but then reads `uri.href`, which the
assignment does not update.  `url.format` applied to the very object the
source builds would have produced exactly the URL the claim requires, showing
the parameters and encoding were as intended and the slip is reading `href`. -/
theorem c1_queryV1_request_uri_drops_query_parameters :
    callApiRequest "book a flight to Paris" .v1 "app-123" "key-abc" =
      .ok { method := "GET", uri := "https://api.projectoxford.ai/luis/v1/application" } ∧
    urlFormat (setQuery (urlParse "https://api.projectoxford.ai/luis/v1/application")
        [("id", "app-123"), ("subscription-key", "key-abc"),
          ("q", "book a flight to Paris")]) =
      "https://api.projectoxford.ai/luis/v1/application?id=app-123&subscription-key=key-abc&q=book%20a%20flight%20to%20Paris" ∧
    ("https://api.projectoxford.ai/luis/v1/application" : String) ≠
      "https://api.projectoxford.ai/luis/v1/application?id=app-123&subscription-key=key-abc&q=book%20a%20flight%20to%20Paris" := by
  refine ⟨rfl, rfl, ?_⟩
  decide

/-- C2: the claim fails on the code.  A delivered response whose body is the
empty string (not valid JSON) leaves the returned promise pending forever:
`JSON.parse` throws inside the transport callback, after the Promise executor
has returned, so the failure becomes an uncaught exception, not a
rejection. -/
theorem c2_unparseable_body_promise_never_settles :
    callApi "hello" .v1 "app" "key"
        (fun _ => (TransportResult.response 200 "" : TransportResult Unit)) =
      .ok (.neverSettled "Unexpected end of JSON input") := rfl

/-- C3: the dispatcher switch maps selector V1 to the fixed production
endpoint and selector V1-preview to the fixed preview endpoint. -/
theorem c3_version_selector_maps_to_fixed_endpoints :
    baseUriFor .v1 = .ok "https://api.projectoxford.ai/luis/v1/application" ∧
    baseUriFor .v1Preview = .ok "https://api.projectoxford.ai/luis/v1/application/preview" :=
  ⟨rfl, rfl⟩

/-- C4: when the transport signals an error, the promise of either entry
point rejects with exactly that error value — unexamined, unmodified, and it
does not resolve — for every credential pair, query and error value. -/
theorem c4_transport_error_rejected_verbatim {ε : Type}
    (applicationId subscriptionKey query : String) (e : ε) :
    (create applicationId subscriptionKey).queryV1 query (fun _ => .error e) =
      .ok (.rejected e) ∧
    (create applicationId subscriptionKey).queryV1Preview query (fun _ => .error e) =
      .ok (.rejected e) :=
  ⟨rfl, rfl⟩

/-- C5: the HTTP status code is never examined — for the same body, any two
status codes yield the same outcome — and whenever the body parses as JSON the
promise resolves with exactly the parsed value, unvalidated, through either
entry point. -/
theorem c5_status_ignored_and_parsed_body_resolves {ε : Type}
    (applicationId subscriptionKey query body : String) (s s' : Nat) (v : Json)
    (h : jsonParse body = .ok v) :
    ((create applicationId subscriptionKey).queryV1 query
        (fun _ => (TransportResult.response s body : TransportResult ε)) =
      (create applicationId subscriptionKey).queryV1 query
        (fun _ => TransportResult.response s' body)) ∧
    ((create applicationId subscriptionKey).queryV1 query
        (fun _ => (TransportResult.response s body : TransportResult ε)) =
      .ok (.resolved v)) ∧
    ((create applicationId subscriptionKey).queryV1Preview query
        (fun _ => (TransportResult.response s body : TransportResult ε)) =
      .ok (.resolved v)) := by
  refine ⟨rfl, ?_, ?_⟩ <;>
    simp [create, callApi, callApiRequest, baseUriFor, requestCallback, settleFromCallback, h]

/-- Witness for C5 at concrete inputs: body `"1"` parses, and the V1 call
with that body resolves with the parsed value. -/
theorem c5_status_ignored_witness :
    jsonParse "1" = .ok (.num "1") ∧
    (create "app" "key").queryV1 "hi"
        (fun _ => (TransportResult.response 200 "1" : TransportResult Unit)) =
      .ok (.resolved (.num "1")) :=
  ⟨rfl,
    (c5_status_ignored_and_parsed_body_resolves "app" "key" "hi" "1" 200 404
      (.num "1") rfl).2.1⟩

/-- C6: the `None` selector makes the dispatcher throw synchronously — the
identical error for every transport, hence before and without any network
activity — while the factory entry points always pass the switch and never
produce that synchronous throw. -/
theorem c6_unsupported_version_throws_synchronously {ε : Type}
    (applicationId subscriptionKey query : String)
    (t t' : HttpRequest → TransportResult ε) :
    callApi query .none applicationId subscriptionKey t =
      .error "The specified version 'None' is not supported." ∧
    callApi query .none applicationId subscriptionKey t =
      callApi query .none applicationId subscriptionKey t' ∧
    (∃ po, (create applicationId subscriptionKey).queryV1 query t = .ok po) ∧
    (∃ po, (create applicationId subscriptionKey).queryV1Preview query t = .ok po) :=
  ⟨rfl, rfl, ⟨_, rfl⟩, ⟨_, rfl⟩⟩

/-- C7: `create` is pure, total construction for arbitrary credential strings
(empty included): it never fails, and each of the two operations of the
returned object delegates to the dispatcher with the captured credentials and
its version selector (the `Application` structure exposes exactly these two
operations). -/
theorem c7_create_pure_total_delegation {ε : Type}
    (applicationId subscriptionKey query : String)
    (t : HttpRequest → TransportResult ε) :
    ((create applicationId subscriptionKey).queryV1 query t =
      callApi query .v1 applicationId subscriptionKey t) ∧
    ((create applicationId subscriptionKey).queryV1Preview query t =
      callApi query .v1Preview applicationId subscriptionKey t) ∧
    ((create "" "" : Application ε).queryV1 "" t =
      callApi "" .v1 "" "" t) :=
  ⟨rfl, rfl, rfl⟩

/-- C8: the claim fails on the code.  Two applications created with different
credentials, issuing their own calls, produce byte-identical GET requests to
the bare V1 endpoint: neither call's request carries its own credentials or
query text, because the parameters assigned to `uri.query` never reach
`uri.href`. -/
theorem c8_distinct_credentials_identical_bare_requests :
    callApiRequest "hello" .v1 "app-A" "key-A" =
      .ok { method := "GET", uri := "https://api.projectoxford.ai/luis/v1/application" } ∧
    callApiRequest "world" .v1 "app-B" "key-B" =
      .ok { method := "GET", uri := "https://api.projectoxford.ai/luis/v1/application" } :=
  ⟨rfl, rfl⟩

/-- C9: the claim fails on the code.  For a response whose body does not parse
as JSON, the call's completion is never delivered: the promise never settles
(for transport errors and parseable bodies it does settle, but not for this
outcome). -/
theorem c9_completion_not_delivered_for_unparseable_body :
    Except.map PromiseOutcome.settled
        ((create "app" "key").queryV1Preview "hello"
          (fun _ => (TransportResult.response 200 "\x7b" : TransportResult Unit))) =
      .ok false := rfl

/-- C10: both entry points are one shared dispatcher tail applied to the
selected base endpoint — parameter construction, transport call, error
forwarding and response handling identical — and no version-specific
processing of the response body exists: a body that parses resolves unchanged
through either entry point. -/
theorem c10_shared_dispatch_path_version_independent {ε : Type}
    (applicationId subscriptionKey query body : String) (s : Nat) (v : Json)
    (t : HttpRequest → TransportResult ε) (h : jsonParse body = .ok v) :
    ((create applicationId subscriptionKey).queryV1 query t =
      .ok (dispatchWithBase "https://api.projectoxford.ai/luis/v1/application"
        query applicationId subscriptionKey t)) ∧
    ((create applicationId subscriptionKey).queryV1Preview query t =
      .ok (dispatchWithBase "https://api.projectoxford.ai/luis/v1/application/preview"
        query applicationId subscriptionKey t)) ∧
    ((create applicationId subscriptionKey).queryV1 query
        (fun _ => (TransportResult.response s body : TransportResult ε)) =
      .ok (.resolved v)) ∧
    ((create applicationId subscriptionKey).queryV1Preview query
        (fun _ => (TransportResult.response s body : TransportResult ε)) =
      .ok (.resolved v)) := by
  refine ⟨rfl, rfl, ?_, ?_⟩ <;>
    simp [create, callApi, callApiRequest, baseUriFor, requestCallback, settleFromCallback, h]

/-- Witness for C10 at concrete inputs: body `"true"` parses, and the preview
call with that body resolves with the parsed value. -/
theorem c10_shared_dispatch_witness :
    jsonParse "true" = .ok (.bool true) ∧
    (create "a" "b").queryV1Preview "q"
        (fun _ => (TransportResult.response 500 "true" : TransportResult Unit)) =
      .ok (.resolved (.bool true)) :=
  ⟨rfl,
    (c10_shared_dispatch_path_version_independent "a" "b" "q" "true" 500
      (.bool true) (fun _ => TransportResult.response 500 "true") rfl).2.2.2⟩

end Luis
